import Mathlib

/-!
Verification of the MEDrecord node-fhir-server (a multi-tenant FHIR R4 REST
facade) against its natural-language specification.

The TypeScript sources are shallowly embedded as pure Lean functions:
  * asynchronous database access is replaced by explicit state passing over a
    `Db` value holding the relevant tables;
  * the external MEDrecord Gateway is an oracle (`Option GatewayUser`) on the
    request;
  * wall-clock time and generated UUIDs are threaded through an `Env` record;
  * random ids on OperationOutcome / Bundle envelopes and HTTP headers
    (ETag, Last-Modified, X-Request-Id, Location) are not modelled — no
    property below depends on them;
  * JavaScript truthiness on optional strings is made explicit (`jsTruthy`),
    and `x || null` column normalisation is `orNull`.
-/

/-- JavaScript truthiness of a nullable string: `null`/`undefined` and the
empty string are falsy. -/
def jsTruthy : Option String → Bool
  | some s => s ≠ ""
  | none => false

/-- JS `x || null` applied to a nullable string column value: an empty string
collapses to SQL NULL. -/
def orNull : Option String → Option String
  | some s => if s = "" then none else some s
  | none => none

/-- PostgREST `.single()`: succeeds exactly when one row matches the filters
(zero rows and multiple rows are both errors). -/
def single? {α : Type} : List α → Option α
  | [x] => some x
  | _ => none

/-! Structural character-list implementations of the string operations the
sources use (`split`, `includes`, `startsWith`, `endsWith`, `toLowerCase`,
`slice`), so that every embedded function is kernel-computable. -/

def splitOnCharAux (sep : Char) : List Char → List Char → List (List Char)
  | [], acc => [acc.reverse]
  | c :: cs, acc =>
    if c == sep then acc.reverse :: splitOnCharAux sep cs []
    else splitOnCharAux sep cs (c :: acc)

/-- Split a string at a single-character separator (JS `split`). -/
def strSplitOnChar (sep : Char) (s : String) : List String :=
  (splitOnCharAux sep s.toList []).map String.mk

def charListStartsWith : List Char → List Char → Bool
  | _, [] => true
  | [], _ :: _ => false
  | c :: cs, d :: ds => c == d && charListStartsWith cs ds

def charListContains (haystack needle : List Char) : Bool :=
  match haystack with
  | [] => needle.isEmpty
  | _ :: rest => charListStartsWith haystack needle || charListContains rest needle

/-- Substring containment (JS `String.prototype.includes`). -/
def strContains (haystack needle : String) : Bool :=
  charListContains haystack.toList needle.toList

/-- JS `String.prototype.startsWith`. -/
def strStartsWith (s pre : String) : Bool :=
  charListStartsWith s.toList pre.toList

/-- JS `String.prototype.endsWith`. -/
def strEndsWith (s post : String) : Bool :=
  charListStartsWith s.toList.reverse post.toList.reverse

/-- Drop the first `n` characters (JS `slice(n)`). -/
def stringDrop (s : String) (n : Nat) : String :=
  String.mk (s.toList.drop n)

/-- JS `String.prototype.toLowerCase` (ASCII case folding). -/
def strToLower (s : String) : String :=
  String.mk (s.toList.map Char.toLower)

/-- JS `parseInt(s, 10)`: skip leading whitespace, optional sign, then the
longest run of decimal digits; `none` models `NaN`. -/
def jsParseInt (s : String) : Option Int :=
  let cs := s.toList.dropWhile (fun c => c.isWhitespace)
  let signAndRest : Bool × List Char :=
    match cs with
    | '-' :: rest => (true, rest)
    | '+' :: rest => (false, rest)
    | _ => (false, cs)
  let ds := signAndRest.2.takeWhile (fun c => c.isDigit)
  if ds.isEmpty then none
  else
    let n : Nat := ds.foldl (fun n c => n * 10 + (c.toNat - '0'.toNat)) 0
    some (if signAndRest.1 then -(n : Int) else (n : Int))

/-! ## Roles and users (src/types/fhir.ts, gateway auth) -/

/-- The `UserRole` union from the type definitions. -/
inductive UserRole
  | super_admin
  | tenant_admin
  | practitioner
  | patient
  | researcher
  | dev
deriving DecidableEq, Repr

/-- The `GatewayUser` record: the authenticated user as assembled by `validateGatewayAuth`
(gateway identity plus the user-mapping lookup and role scopes). -/
structure GatewayUser where
  id : String
  email : String
  name : Option String
  role : UserRole
  tenantId : String
  patientId : Option String
  practitionerId : Option String
  scopes : List String
deriving DecidableEq, Repr

/-- Function `mapRoleToScopes` (lib/gateway/auth.ts): SMART on FHIR scopes per role. -/
def mapRoleToScopes : UserRole → List String
  | .super_admin => ["system/*.*"]
  | .tenant_admin => ["system/*.*"]
  | .practitioner =>
      ["user/Patient.read", "user/Patient.write",
       "user/Observation.read", "user/Observation.write",
       "user/Condition.read", "user/Condition.write",
       "user/AllergyIntolerance.read", "user/AllergyIntolerance.write",
       "user/MedicationRequest.read", "user/MedicationRequest.write",
       "user/Encounter.read", "user/Encounter.write"]
  | .patient =>
      ["patient/Patient.read", "patient/Observation.read",
       "patient/Condition.read", "patient/AllergyIntolerance.read",
       "patient/MedicationRequest.read", "patient/Encounter.read"]
  | .researcher => ["user/Observation.read", "user/Condition.read"]
  | .dev => ["system/*.read"]

namespace GatewayAuth

/-- Parse of a SMART scope against the anchored pattern
`^(system|user|patient)/(\*|[A-Za-z]+)\.(\*|read|write)$` used by `hasScope`
in lib/gateway/auth.ts; `none` models a failed regex match. -/
def scopeParse (s : String) : Option (String × String × String) :=
  match strSplitOnChar '/' s with
  | [context, rest] =>
    if context = "system" ∨ context = "user" ∨ context = "patient" then
      match strSplitOnChar '.' rest with
      | [resource, action] =>
        if (resource = "*" ∨ (resource ≠ "" ∧ resource.toList.all (fun c => c.isAlpha))) ∧
           (action = "*" ∨ action = "read" ∨ action = "write") then
          some (context, resource, action)
        else none
      | _ => none
    else none
  | _ => none

/-- Function `hasScope` from lib/gateway/auth.ts (the one used by the FHIR router):
admins always pass; otherwise some scope of the user must match the
resource type and action, and patient-context scopes only count for the
patient role. -/
def hasScope (user : GatewayUser) (resourceType : String) (action : String) : Bool :=
  if user.role == .super_admin || user.role == .tenant_admin then true
  else
    user.scopes.any fun scope =>
      match scopeParse scope with
      | none => false
      | some (context, resource, scopeAction) =>
        if resource ≠ "*" && resource ≠ resourceType then false
        else if scopeAction ≠ "*" && scopeAction ≠ action then false
        else if context == "patient" && user.role != .patient then false
        else true

end GatewayAuth

namespace LibAuth

/-- The clinical resource list of the second `hasScope` (lib/fhir/auth
module), practitioner branch. -/
def clinicalResources : List String :=
  ["Patient", "Observation", "Condition", "AllergyIntolerance",
   "MedicationRequest", "Encounter", "Procedure"]

/-- The resource list of the patient branch of the same function. -/
def patientResources : List String :=
  ["Patient", "Observation", "Condition", "AllergyIntolerance",
   "MedicationRequest", "Encounter"]

/-- The role-table `hasScope` variant taking an operation
`read | write | delete`: admins pass everything, practitioners get
read/write on clinical resources, patients read-only on patient resources,
researcher and dev read-only. -/
def hasScope (user : GatewayUser) (resourceType : String) (operation : String) : Bool :=
  if user.role == .super_admin || user.role == .tenant_admin then true
  else if user.role == .practitioner then
    if clinicalResources.contains resourceType then operation != "delete" else false
  else if user.role == .patient then
    patientResources.contains resourceType && operation == "read"
  else if user.role == .researcher then operation == "read"
  else if user.role == .dev then operation == "read"
  else false

end LibAuth

/-! ## FHIR resource values (src/types/fhir.ts, the fields the handlers touch) -/

/-- The `meta` element of a resource. `source` stands for the passthrough fields
that an object spread `{...patient.meta}` preserves untouched. -/
structure FhirMeta where
  versionId : Option String
  lastUpdated : Option String
  profile : Option (List String)
  source : Option String
deriving DecidableEq, Repr

structure HumanName where
  family : Option String
  given : Option (List String)
deriving DecidableEq, Repr

structure Identifier where
  system : Option String
  value : Option String
deriving DecidableEq, Repr

structure Coding where
  system : Option String
  code : Option String
  display : Option String
deriving DecidableEq, Repr

structure CodeableConcept where
  coding : Option (List Coding)
deriving DecidableEq, Repr

/-- FHIR Quantity; the JSON number is modelled as a rational. -/
structure Quantity where
  value : Option Rat
  unit : Option String
deriving DecidableEq, Repr

structure FhirReference where
  reference : Option String
deriving DecidableEq, Repr

/-- The Patient resource fields read or written by the Patient handler. -/
structure FhirPatient where
  resourceType : String
  id : Option String
  meta : Option FhirMeta
  identifier : Option (List Identifier)
  name : Option (List HumanName)
  birthDate : Option String
  gender : Option String
  deceasedBoolean : Option Bool
  deceasedDateTime : Option String
  active : Option Bool
deriving DecidableEq, Repr

/-- The Observation resource fields read or written by the Observation
handler. `effectivePeriodStart` stands for `effectivePeriod?.start`. -/
structure FhirObservation where
  resourceType : String
  id : Option String
  meta : Option FhirMeta
  status : Option String
  code : Option CodeableConcept
  category : Option (List CodeableConcept)
  subject : Option FhirReference
  effectiveDateTime : Option String
  effectivePeriodStart : Option String
  valueQuantity : Option Quantity
deriving DecidableEq, Repr

/-! ## Database rows (Database type in src/lib/supabase/client.ts) -/

/-- A row of the `patients` table. -/
structure PatientRow where
  id : String
  tenant_id : String
  resource_id : String
  bsn_hash : Option String
  family_name : Option String
  given_name : Option String
  birth_date : Option String
  gender : Option String
  deceased : Bool
  active : Bool
  resource : FhirPatient
  version_id : Nat
  last_updated : String
  created_at : String
deriving DecidableEq, Repr

/-- A row of the `observations` table. -/
structure ObservationRow where
  id : String
  tenant_id : String
  resource_id : String
  patient_id : String
  code_system : Option String
  code_code : Option String
  code_display : Option String
  category : Option String
  status : Option String
  effective_date : Option String
  value_quantity_value : Option Rat
  value_quantity_unit : Option String
  resource : FhirObservation
  version_id : Nat
  last_updated : String
  created_at : String
deriving DecidableEq, Repr

/-- A row of the `care_relationships` table (the columns consulted). -/
structure CareRelationshipRow where
  tenant_id : String
  practitioner_id : String
  patient_id : String
  active : Bool
deriving DecidableEq, Repr

/-- A row of the `audit_logs` table (the columns written by
`logAuditEvent`; request metadata and the details blob are elided). -/
structure AuditLogRow where
  tenant_id : String
  user_id : Option String
  action : String
  resource_type : String
  resource_id : Option String
  response_status : Nat
deriving DecidableEq, Repr

/-- The database state visible to the embedded handlers. -/
structure Db where
  patients : List PatientRow
  observations : List ObservationRow
  care_relationships : List CareRelationshipRow
  audit_logs : List AuditLogRow
deriving DecidableEq, Repr

/-- Function `hasCareRelationship` (lib/gateway/auth.ts): an active care relationship
row for the triple must match `.single()`. -/
def hasCareRelationship (db : Db) (tenantId practitionerId patientId : String) : Bool :=
  (single? (db.care_relationships.filter fun r =>
    r.tenant_id == tenantId && r.practitioner_id == practitionerId &&
    r.patient_id == patientId && r.active)).isSome

/-- Function `canAccessPatient` (lib/gateway/auth.ts). `patientId` is the internal
`patients.id` of the row being accessed. A practitioner with a falsy
`practitionerId` falls through all branches to the final `false`. -/
def canAccessPatient (db : Db) (user : GatewayUser) (patientId : String) : Bool :=
  if user.role == .super_admin || user.role == .tenant_admin then true
  else if user.role == .patient then user.patientId == some patientId
  else if user.role == .practitioner && jsTruthy user.practitionerId then
    hasCareRelationship db user.tenantId (user.practitionerId.getD "") patientId
  else if user.role == .researcher then true
  else if user.role == .dev then true
  else false

/-- Function `extractTenantId` (lib/gateway/auth.ts): only a super admin may switch
tenants through the `X-Tenant-ID` header (an empty header value is falsy);
everyone else is bound to the tenant of their gateway identity. -/
def extractTenantId (headerTenantId : Option String) (user : GatewayUser) : String :=
  if user.role == .super_admin then
    match headerTenantId with
    | some t => if t ≠ "" then t else user.tenantId
    | none => user.tenantId
  else user.tenantId

/-! ## Responses and OperationOutcome (src/lib/fhir/utils/response.ts) -/

/-- Table `issueCodeMap`: issue code by HTTP status. -/
def issueCodeMap (httpStatus : Nat) : Option String :=
  if httpStatus = 400 then some "invalid"
  else if httpStatus = 401 then some "login"
  else if httpStatus = 403 then some "forbidden"
  else if httpStatus = 404 then some "not-found"
  else if httpStatus = 405 then some "not-supported"
  else if httpStatus = 409 then some "conflict"
  else if httpStatus = 410 then some "deleted"
  else if httpStatus = 412 then some "conflict"
  else if httpStatus = 422 then some "processing"
  else if httpStatus = 500 then some "exception"
  else if httpStatus = 501 then some "not-supported"
  else if httpStatus = 503 then some "transient"
  else none

structure OperationOutcomeIssue where
  severity : String
  code : String
  detailsText : String
  diagnostics : Option String
deriving DecidableEq, Repr

/-- An OperationOutcome resource (random envelope id not modelled). -/
structure OperationOutcome where
  issue : List OperationOutcomeIssue
deriving DecidableEq, Repr

/-- Function `buildOperationOutcome`. -/
def buildOperationOutcome (severity : String) (httpStatus : Nat) (message : String)
    (diagnostics : Option String) : OperationOutcome :=
  { issue := [{ severity := severity, code := (issueCodeMap httpStatus).getD "exception",
                detailsText := message, diagnostics := diagnostics }] }

/-- A resource value carried in a response or bundle entry. -/
inductive FhirResourceValue
  | patient (p : FhirPatient)
  | observation (o : FhirObservation)
deriving DecidableEq, Repr

/-- A searchset Bundle (self links and the random envelope id elided). -/
structure FhirBundle where
  type : String
  total : Nat
  entry : List FhirResourceValue
deriving DecidableEq, Repr

/-- The CapabilityStatement contents that depend on the request, plus the
supported resource/profile table (lib/fhir/capability.ts); the fixed
narrative fields (contact, jurisdiction, documentation strings) are elided. -/
structure CapabilityRestResource where
  type : String
  profile : String
  supportedProfile : List String
deriving DecidableEq, Repr

structure CapabilityStatement where
  resourceType : String
  id : String
  lastUpdated : String
  url : String
  version : String
  name : String
  fhirVersion : String
  implementationUrl : String
  rest : List CapabilityRestResource
deriving DecidableEq, Repr

/-- Body of an HTTP response from the FHIR layer. -/
inductive ResponseBody
  | outcome (oo : OperationOutcome)
  | resource (r : FhirResourceValue)
  | bundle (b : FhirBundle)
  | capability (c : CapabilityStatement)
  | empty
deriving DecidableEq, Repr

/-- An HTTP response (headers not modelled). -/
structure HttpResponse where
  status : Nat
  body : ResponseBody
deriving DecidableEq, Repr

/-- Function `fhirError`: an OperationOutcome error response, severity `fatal` for 5xx
and `error` otherwise. -/
def fhirError (status : Nat) (message : String) (diagnostics : Option String) : HttpResponse :=
  { status := status,
    body := .outcome (buildOperationOutcome (if 500 ≤ status then "fatal" else "error")
      status message diagnostics) }

/-- Function `fhirNoContent`: 204 with an empty body (delete). -/
def fhirNoContent : HttpResponse := { status := 204, body := .empty }

/-! ## Search parameters and pagination -/

/-- A query-parameter value: a single string or an array of strings. -/
inductive ParamValue
  | str (s : String)
  | strs (l : List String)
deriving DecidableEq, Repr

/-- The parameter map handed to the resource handlers. -/
def SearchParams : Type := List (String × ParamValue)

/-- Lookup of a parameter (JS property access on the params record). -/
def getParam (params : SearchParams) (key : String) : Option ParamValue :=
  (params.find? fun kv => kv.1 == key).map fun kv => kv.2

/-- JS truthiness of a parameter value: an empty string is falsy, an array
(even the empty array) is truthy. -/
def paramTruthy : Option ParamValue → Bool
  | some (.str s) => s ≠ ""
  | some (.strs _) => true
  | none => false

/-- JS `String(v)`: an array is joined with commas. -/
def jsString : ParamValue → String
  | .str s => s
  | .strs l => String.intercalate "," l

/-- Function `extractPagination` (src/lib/fhir/utils/response.ts): `_count` defaults
to 50 when missing, not a single string, NaN, or below 1, and is capped at
1000; `_offset` defaults to 0 when missing, not a single string, NaN, or
negative. -/
def extractPagination (params : SearchParams) : Int × Int :=
  let countRaw : Option Int :=
    match getParam params "_count" with
    | some (.str s) => jsParseInt s
    | _ => some 50
  let offsetRaw : Option Int :=
    match getParam params "_offset" with
    | some (.str s) => jsParseInt s
    | _ => some 0
  let count : Int :=
    match countRaw with
    | none => 50
    | some n => if n < 1 then 50 else min n 1000
  let offset : Int :=
    match offsetRaw with
    | none => 0
    | some n => if n < 0 then 0 else n
  (count, offset)

/-! ## CapabilityStatement (lib/fhir/capability.ts) -/

def NL_CORE_BASE : String := "http://nictiz.nl/fhir/StructureDefinition"

/-- Table `resourceDefinitions`: supported resource types with their nl-core
profiles (interaction and search-parameter documentation elided). -/
def resourceDefinitions : List CapabilityRestResource :=
  [ { type := "Patient", profile := NL_CORE_BASE ++ "/nl-core-Patient",
      supportedProfile := [NL_CORE_BASE ++ "/nl-core-Patient"] },
    { type := "Practitioner",
      profile := NL_CORE_BASE ++ "/nl-core-HealthProfessional-Practitioner",
      supportedProfile := [NL_CORE_BASE ++ "/nl-core-HealthProfessional-Practitioner"] },
    { type := "Organization",
      profile := NL_CORE_BASE ++ "/nl-core-HealthcareProvider-Organization",
      supportedProfile := [NL_CORE_BASE ++ "/nl-core-HealthcareProvider-Organization"] },
    { type := "Observation", profile := NL_CORE_BASE ++ "/nl-core-LaboratoryTestResult",
      supportedProfile :=
        [NL_CORE_BASE ++ "/nl-core-BloodPressure", NL_CORE_BASE ++ "/nl-core-BodyWeight",
         NL_CORE_BASE ++ "/nl-core-BodyHeight", NL_CORE_BASE ++ "/nl-core-LaboratoryTestResult"] },
    { type := "Condition", profile := NL_CORE_BASE ++ "/nl-core-Problem",
      supportedProfile := [NL_CORE_BASE ++ "/nl-core-Problem"] },
    { type := "AllergyIntolerance", profile := NL_CORE_BASE ++ "/nl-core-AllergyIntolerance",
      supportedProfile := [NL_CORE_BASE ++ "/nl-core-AllergyIntolerance"] },
    { type := "MedicationRequest", profile := NL_CORE_BASE ++ "/nl-core-MedicationAgreement",
      supportedProfile :=
        [NL_CORE_BASE ++ "/nl-core-MedicationAgreement",
         NL_CORE_BASE ++ "/nl-core-DispenseRequest"] },
    { type := "Encounter", profile := NL_CORE_BASE ++ "/nl-core-Encounter",
      supportedProfile := [NL_CORE_BASE ++ "/nl-core-Encounter"] } ]

/-- Function `getCapabilityStatement (baseUrl, version)`: a 200 response carrying the
conformance resource; it depends only on the base URL, the path version and
the clock. -/
def getCapabilityStatement (baseUrl : String) (version : String) (now : String) : HttpResponse :=
  { status := 200,
    body := .capability
      { resourceType := "CapabilityStatement", id := "medrecord-fhir-server",
        lastUpdated := now, url := baseUrl ++ "/" ++ version ++ "/metadata",
        version := "1.0.0", name := "MEDrecordFHIRServer", fhirVersion := "4.0.1",
        implementationUrl := baseUrl, rest := resourceDefinitions } }

/-! ## Request context and environment -/

/-- The `FhirRequestContext` built by the router. -/
structure FhirRequestContext where
  user : GatewayUser
  tenantId : String
  version : String
  baseUrl : String
deriving DecidableEq, Repr

/-- Nondeterministic inputs of one request: the clock (`new Date()` / SQL
`now()`, one instant per request) and the UUIDs `crypto.randomUUID()` /
`gen_random_uuid()` would produce for a resource id and a row primary key. -/
structure Env where
  now : String
  freshResourceId : String
  freshRowId : String
deriving DecidableEq, Repr

/-- A parsed request body, as seen after the `resourceType` inspection.
`invalid` stands for a body that is null, not an object, or of no resource
shape the handlers accept. -/
inductive FhirInput
  | patient (p : FhirPatient)
  | observation (o : FhirObservation)
  | invalid
deriving DecidableEq, Repr

/-! ## Patient resource handler (lib/fhir/resources/patient.ts) -/

def NL_CORE_PATIENT_PROFILE : String :=
  "http://nictiz.nl/fhir/StructureDefinition/nl-core-Patient"

def BSN_SYSTEM : String := "http://fhir.nl/fhir/NamingSystem/bsn"

def base64Alphabet : List Char :=
  "ABCDEFGHIJKLMNOPQRSTUVWXYZabcdefghijklmnopqrstuvwxyz0123456789+/".toList

def base64Char (n : Nat) : Char := base64Alphabet.getD n 'A'

/-- Standard base64 of a byte list (the encoding behind
`Buffer.from(bsn).toString(base64)`). -/
def base64Encode : List Nat → String
  | [] => ""
  | [b1] => String.mk [base64Char (b1 / 4), base64Char (b1 % 4 * 16), '=', '=']
  | [b1, b2] =>
      String.mk [base64Char (b1 / 4), base64Char (b1 % 4 * 16 + b2 / 16),
                 base64Char (b2 % 16 * 4), '=']
  | b1 :: b2 :: b3 :: rest =>
      String.mk [base64Char (b1 / 4), base64Char (b1 % 4 * 16 + b2 / 16),
                 base64Char (b2 % 16 * 4 + b3 / 64), base64Char (b3 % 64)]
        ++ base64Encode rest

/-- UTF-8 bytes of one character. -/
def utf8Bytes (c : Char) : List Nat :=
  let n := c.toNat
  if n < 128 then [n]
  else if n < 2048 then [192 + n / 64, 128 + n % 64]
  else if n < 65536 then [224 + n / 4096, 128 + n / 64 % 64, 128 + n % 64]
  else [240 + n / 262144, 128 + n / 4096 % 64, 128 + n / 64 % 64, 128 + n % 64]

/-- Function `hashBsn`: base64 of the UTF-8 bytes of the BSN. -/
def hashBsn (bsn : String) : String :=
  base64Encode (bsn.toList.map utf8Bytes).flatten

/-- Function `toFhirPatient`: spread the stored resource blob, then force
`resourceType`, `id` and the `meta` version/lastUpdated/profile; other meta
fields survive the inner spread. -/
def toFhirPatient (row : PatientRow) : FhirPatient :=
  let patient := row.resource
  { patient with
      resourceType := "Patient",
      id := some row.resource_id,
      meta := some
        { versionId := some (toString row.version_id),
          lastUpdated := some row.last_updated,
          profile := some [NL_CORE_PATIENT_PROFILE],
          source := patient.meta.bind fun m => m.source } }

/-- The `Insert` shape of the `patients` table. -/
structure PatientInsert where
  tenant_id : String
  resource_id : String
  bsn_hash : Option String
  family_name : Option String
  given_name : Option String
  birth_date : Option String
  gender : Option String
  deceased : Bool
  active : Bool
  resource : FhirPatient
deriving DecidableEq, Repr

/-- Function `toDbRow` (patient handler): extract the indexed scalar columns from the
resource; `freshUuid` is the `crypto.randomUUID()` used when the resource
has no (truthy) id. -/
def toDbRow (patient : FhirPatient) (tenantId : String) (freshUuid : String) : PatientInsert :=
  let firstName := patient.name.bind fun l => l.head?
  let familyName := firstName.bind fun n => n.family
  let givenName := (firstName.bind fun n => n.given).map (String.intercalate " ")
  let deceased := patient.deceasedBoolean == some true || jsTruthy patient.deceasedDateTime
  let active := patient.active.getD true
  let bsnIdentifier := patient.identifier.bind fun l =>
    l.find? fun i => i.system == some BSN_SYSTEM
  let bsnHash :=
    match bsnIdentifier.bind fun i => i.value with
    | some v => if v ≠ "" then some (hashBsn v) else none
    | none => none
  { tenant_id := tenantId,
    resource_id :=
      match patient.id with
      | some i => if i ≠ "" then i else freshUuid
      | none => freshUuid,
    bsn_hash := bsnHash,
    family_name := orNull familyName,
    given_name := orNull givenName,
    birth_date := orNull patient.birthDate,
    gender := orNull patient.gender,
    deceased := deceased,
    active := active,
    resource := patient }

/-- SQL ILIKE with a needle wrapped in percent wildcards, on a nullable column: case-insensitive substring
match, false on NULL (wildcard characters inside the needle not modelled). -/
def ilike (column : Option String) (needle : String) : Bool :=
  match column with
  | some s => strContains (strToLower s) (strToLower needle)
  | none => false

/-- Insert into a Bool-sorted list (used to model the SQL ORDER BY). -/
def insertSorted {α : Type} (le : α → α → Bool) (x : α) : List α → List α
  | [] => [x]
  | y :: ys => if le x y then x :: y :: ys else y :: insertSorted le x ys

def sortByBool {α : Type} (le : α → α → Bool) : List α → List α
  | [] => []
  | x :: xs => insertSorted le x (sortByBool le xs)

/-- PostgREST `.range(offset, offset + count - 1)` applied after ordering. -/
def paginate {α : Type} (l : List α) (pag : Int × Int) : List α :=
  (l.drop pag.2.toNat).take pag.1.toNat

/-- The row filter of the patient search query: tenant and `active = true`
always, then one conjunct per supplied search parameter, then the own-data
restriction for the patient role. -/
def patientSearchFilter (params : SearchParams) (user : GatewayUser) (tenantId : String)
    (r : PatientRow) : Bool :=
  r.tenant_id == tenantId && r.active
  && (if paramTruthy (getParam params "_id") then
        r.resource_id == jsString ((getParam params "_id").getD (.str ""))
      else true)
  && (if paramTruthy (getParam params "identifier") then
        let identifier := jsString ((getParam params "identifier").getD (.str ""))
        if strContains identifier BSN_SYSTEM then
          match (strSplitOnChar '|' identifier).get? 1 with
          | some bsn => if bsn ≠ "" then r.bsn_hash == some (hashBsn bsn) else true
          | none => true
        else true
      else true)
  && (if paramTruthy (getParam params "family") then
        ilike r.family_name (jsString ((getParam params "family").getD (.str "")))
      else true)
  && (if paramTruthy (getParam params "given") then
        ilike r.given_name (jsString ((getParam params "given").getD (.str "")))
      else true)
  && (if paramTruthy (getParam params "name") then
        let n := jsString ((getParam params "name").getD (.str ""))
        ilike r.family_name n || ilike r.given_name n
      else true)
  && (if paramTruthy (getParam params "birthdate") then
        r.birth_date == some (jsString ((getParam params "birthdate").getD (.str "")))
      else true)
  && (if paramTruthy (getParam params "gender") then
        r.gender == some (jsString ((getParam params "gender").getD (.str "")))
      else true)
  && (if user.role == .patient && jsTruthy user.patientId then
        r.id == user.patientId.getD ""
      else true)

/-- The `search` operation of the patient handler: filter, count, order by `last_updated`
(descending when `_sort=-_lastUpdated`), paginate, wrap in a searchset
Bundle. -/
def patientSearch (db : Db) (params : SearchParams) (ctx : FhirRequestContext) : HttpResponse :=
  let rows := db.patients.filter (patientSearchFilter params ctx.user ctx.tenantId)
  let descending := getParam params "_sort" == some (.str "-_lastUpdated")
  let sorted := sortByBool
    (fun a b => if descending then decide (b.last_updated ≤ a.last_updated)
                else decide (a.last_updated ≤ b.last_updated)) rows
  let page := paginate sorted (extractPagination params)
  { status := 200,
    body := .bundle
      { type := "searchset", total := rows.length,
        entry := page.map fun r => .patient (toFhirPatient r) } }

/-- The `read` operation of the patient handler: `.single()` lookup by tenant and resource
id, then `canAccessPatient` on the internal row id. -/
def patientRead (db : Db) (id : String) (ctx : FhirRequestContext) : HttpResponse :=
  match single? (db.patients.filter fun r =>
      r.tenant_id == ctx.tenantId && r.resource_id == id) with
  | none => fhirError 404 "Patient not found" (some ("No Patient found with id " ++ id))
  | some row =>
    if canAccessPatient db ctx.user row.id then
      { status := 200, body := .resource (.patient (toFhirPatient row)) }
    else
      fhirError 403 "Access denied"
        (some "You do not have permission to access this patient")

/-- The row produced by inserting a `PatientInsert`: the database fills the
primary key, `version_id DEFAULT 1` and the timestamps
(001-fhir-schema.sql). -/
def patientRowOfInsert (ins : PatientInsert) (env : Env) : PatientRow :=
  { id := env.freshRowId, tenant_id := ins.tenant_id, resource_id := ins.resource_id,
    bsn_hash := ins.bsn_hash, family_name := ins.family_name, given_name := ins.given_name,
    birth_date := ins.birth_date, gender := ins.gender, deceased := ins.deceased,
    active := ins.active, resource := ins.resource, version_id := 1,
    last_updated := env.now, created_at := env.now }

/-- INSERT INTO patients: fails (unique-violation 23505 on
`UNIQUE(tenant_id, resource_id)`) when a row with the pair already exists,
else appends the new row. -/
def insertPatient (db : Db) (env : Env) (ins : PatientInsert) : Option PatientRow × Db :=
  if db.patients.any fun r =>
      r.tenant_id == ins.tenant_id && r.resource_id == ins.resource_id then
    (none, db)
  else
    let row := patientRowOfInsert ins env
    (some row, { db with patients := db.patients ++ [row] })

/-- Trigger function `increment_version_id` (001-fhir-schema.sql), fired BEFORE UPDATE on
every resource table: whatever the application assigned, the stored tuple
gets `version_id = OLD.version_id + 1` and `last_updated = now()`. -/
def increment_version_id (old tuple : PatientRow) (dbNow : String) : PatientRow :=
  { tuple with version_id := old.version_id + 1, last_updated := dbNow }

/-- The tuple proposed by the UPDATE statement of the patient handler
(`{...row, version_id, last_updated}` over the existing row). -/
def patientUpdateTuple (old : PatientRow) (ins : PatientInsert) (appVersionId : Nat)
    (appNow : String) : PatientRow :=
  { old with
      tenant_id := ins.tenant_id, resource_id := ins.resource_id,
      bsn_hash := ins.bsn_hash, family_name := ins.family_name,
      given_name := ins.given_name, birth_date := ins.birth_date,
      gender := ins.gender, deceased := ins.deceased, active := ins.active,
      resource := ins.resource, version_id := appVersionId, last_updated := appNow }

/-- Replace the patient row with the given internal id. -/
def replacePatientRow (db : Db) (rowId : String) (stored : PatientRow) : Db :=
  { db with patients := db.patients.map fun r => if r.id == rowId then stored else r }

/-- The `create` operation of the patient handler: validate the resource type, give the
resource an id when it has none, map to a row and insert; a unique
violation is a 409 Conflict. -/
def patientCreate (db : Db) (env : Env) (body : FhirInput) (ctx : FhirRequestContext) :
    HttpResponse × Db :=
  match body with
  | .patient p =>
    if p.resourceType ≠ "Patient" then
      (fhirError 400 "Invalid resource" (some "Request body must be a Patient resource"), db)
    else
      let patient := if jsTruthy p.id then p else { p with id := some env.freshResourceId }
      let row := toDbRow patient ctx.tenantId env.freshResourceId
      match insertPatient db env row with
      | (none, db2) =>
        (fhirError 409 "Conflict"
          (some ("Patient with id " ++ (patient.id.getD "") ++ " already exists")), db2)
      | (some data, db2) =>
        ({ status := 201, body := .resource (.patient (toFhirPatient data)) }, db2)
  | _ =>
    (fhirError 400 "Invalid resource" (some "Request body must be a Patient resource"), db)

/-- The `update` operation of the patient handler: validate type and id, `.single()` the
existing row, check access on its internal id, then UPDATE; the stored
tuple passes through the BEFORE UPDATE version trigger. -/
def patientUpdate (db : Db) (env : Env) (id : String) (body : FhirInput)
    (ctx : FhirRequestContext) : HttpResponse × Db :=
  match body with
  | .patient p =>
    if p.resourceType ≠ "Patient" then
      (fhirError 400 "Invalid resource" (some "Request body must be a Patient resource"), db)
    else if jsTruthy p.id && p.id != some id then
      (fhirError 400 "ID mismatch" (some "Resource ID in body does not match URL"), db)
    else
      let patient := { p with id := some id }
      match single? (db.patients.filter fun r =>
          r.tenant_id == ctx.tenantId && r.resource_id == id) with
      | none =>
        (fhirError 404 "Patient not found" (some ("No Patient found with id " ++ id)), db)
      | some existing =>
        if ¬ canAccessPatient db ctx.user existing.id then
          (fhirError 403 "Access denied"
            (some "You do not have permission to update this patient"), db)
        else
          let ins := toDbRow patient ctx.tenantId env.freshResourceId
          let stored := increment_version_id existing
            (patientUpdateTuple existing ins (existing.version_id + 1) env.now) env.now
          ({ status := 200, body := .resource (.patient (toFhirPatient stored)) },
           replacePatientRow db existing.id stored)
  | _ =>
    (fhirError 400 "Invalid resource" (some "Request body must be a Patient resource"), db)

/-- The `delete` operation of the patient handler (soft delete): `.single()` the existing
row, check access, then `UPDATE patients SET active = false` — which also
runs the BEFORE UPDATE version trigger. -/
def patientDelete (db : Db) (env : Env) (id : String) (ctx : FhirRequestContext) :
    HttpResponse × Db :=
  match single? (db.patients.filter fun r =>
      r.tenant_id == ctx.tenantId && r.resource_id == id) with
  | none =>
    (fhirError 404 "Patient not found" (some ("No Patient found with id " ++ id)), db)
  | some existing =>
    if ¬ canAccessPatient db ctx.user existing.id then
      (fhirError 403 "Access denied"
        (some "You do not have permission to delete this patient"), db)
    else
      let stored := increment_version_id existing { existing with active := false } env.now
      (fhirNoContent, replacePatientRow db existing.id stored)

/-! ## Observation resource handler (lib/fhir/resources/observation.ts) -/

def PROFILE_bloodPressure : String :=
  "http://nictiz.nl/fhir/StructureDefinition/nl-core-BloodPressure"
def PROFILE_bodyWeight : String :=
  "http://nictiz.nl/fhir/StructureDefinition/nl-core-BodyWeight"
def PROFILE_bodyHeight : String :=
  "http://nictiz.nl/fhir/StructureDefinition/nl-core-BodyHeight"
def PROFILE_labResult : String :=
  "http://nictiz.nl/fhir/StructureDefinition/nl-core-LaboratoryTestResult"

/-- Function `toFhirObservation`: spread the stored blob, force `resourceType`, `id`
and the meta version/lastUpdated; unlike the patient mapping, the profile is
whatever the stored meta carries. -/
def toFhirObservation (row : ObservationRow) : FhirObservation :=
  let observation := row.resource
  { observation with
      resourceType := "Observation",
      id := some row.resource_id,
      meta := some
        { versionId := some (toString row.version_id),
          lastUpdated := some row.last_updated,
          profile := observation.meta.bind fun m => m.profile,
          source := observation.meta.bind fun m => m.source } }

/-- Function `getProfile`: LOINC code of the first coding decides the vitals profile;
anything else — laboratory category or not — gets the lab-result profile. -/
def getProfile (observation : FhirObservation) : String :=
  let code := (observation.code.bind fun c => c.coding.bind fun l => l.head?).bind
    fun c => c.code
  if code == some "85354-9" then PROFILE_bloodPressure
  else if code == some "29463-7" then PROFILE_bodyWeight
  else if code == some "8302-2" then PROFILE_bodyHeight
  else
    let category := ((observation.category.bind fun l => l.head?).bind
      fun c => c.coding.bind fun l => l.head?).bind fun c => c.code
    if category == some "laboratory" then PROFILE_labResult else PROFILE_labResult

/-- Function `extractPatientId`: the regex `/Patient\/([^/]+)$/` on the subject
reference — a final nonempty segment whose preceding segment ends in
`Patient`. -/
def extractPatientId (subject : Option FhirReference) : Option String :=
  match subject.bind fun s => s.reference with
  | none => none
  | some ref =>
    match (strSplitOnChar '/' ref).reverse with
    | lastSeg :: prevSeg :: _ =>
      if lastSeg ≠ "" && strEndsWith prevSeg "Patient" then some lastSeg else none
    | _ => none

/-- The `Insert` shape of the `observations` table. -/
structure ObservationInsert where
  tenant_id : String
  resource_id : String
  patient_id : String
  code_system : Option String
  code_code : Option String
  code_display : Option String
  category : Option String
  status : Option String
  effective_date : Option String
  value_quantity_value : Option Rat
  value_quantity_unit : Option String
  resource : FhirObservation
deriving DecidableEq, Repr

/-- Function `toDbRow` (observation handler): resolve the subject reference to the
internal patient id (`none` when the reference is absent or the patient is
not found in the tenant), then extract the indexed columns. -/
def obsToDbRow (db : Db) (observation : FhirObservation) (tenantId : String)
    (freshUuid : String) : Option ObservationInsert :=
  match extractPatientId observation.subject with
  | none => none
  | some patientResourceId =>
    match single? (db.patients.filter fun p =>
        p.tenant_id == tenantId && p.resource_id == patientResourceId) with
    | none => none
    | some patientRow =>
      let code := observation.code.bind fun c => c.coding.bind fun l => l.head?
      let category := ((observation.category.bind fun l => l.head?).bind
        fun c => c.coding.bind fun l => l.head?).bind fun c => c.code
      let effectiveDate :=
        match observation.effectiveDateTime with
        | some s => if s ≠ "" then some s else observation.effectivePeriodStart
        | none => observation.effectivePeriodStart
      some
        { tenant_id := tenantId,
          resource_id :=
            match observation.id with
            | some i => if i ≠ "" then i else freshUuid
            | none => freshUuid,
          patient_id := patientRow.id,
          code_system := orNull (code.bind fun c => c.system),
          code_code := orNull (code.bind fun c => c.code),
          code_display := orNull (code.bind fun c => c.display),
          category := orNull category,
          status := observation.status,
          effective_date := orNull effectiveDate,
          value_quantity_value := observation.valueQuantity.bind fun q => q.value,
          value_quantity_unit := orNull (observation.valueQuantity.bind fun q => q.unit),
          resource := observation }

/-- Ascending comparison on a nullable date column (Postgres default ASC,
NULLS LAST). -/
def optDateLe (a b : Option String) : Bool :=
  match a, b with
  | some x, some y => decide (x ≤ y)
  | some _, none => true
  | none, some _ => false
  | none, none => true

/-- The row filter of the observation search query: tenant, the
`patients!inner` join, one conjunct per supplied parameter, and the own-data
restriction for the patient role (the practitioner care-relationship
restriction is applied by `obsSearch` itself, as in the source). -/
def obsSearchFilter (db : Db) (params : SearchParams) (user : GatewayUser)
    (tenantId : String) (r : ObservationRow) : Bool :=
  r.tenant_id == tenantId
  && (match db.patients.find? fun p => p.id == r.patient_id with
      | none => false
      | some joinedPatient =>
        (if paramTruthy (getParam params "patient") then
          let pid := jsString ((getParam params "patient").getD (.str ""))
          let pid := if strStartsWith pid "Patient/" then stringDrop pid 8 else pid
          joinedPatient.resource_id == pid
        else true)
        && (if paramTruthy (getParam params "subject") then
          let sid := jsString ((getParam params "subject").getD (.str ""))
          let sid := if strStartsWith sid "Patient/" then stringDrop sid 8 else sid
          joinedPatient.resource_id == sid
        else true))
  && (if paramTruthy (getParam params "_id") then
        r.resource_id == jsString ((getParam params "_id").getD (.str ""))
      else true)
  && (if paramTruthy (getParam params "code") then
        let codeParts := strSplitOnChar '|' (jsString ((getParam params "code").getD (.str "")))
        if codeParts.length == 2 then
          r.code_system == some (codeParts.getD 0 "")
            && r.code_code == some (codeParts.getD 1 "")
        else r.code_code == some (codeParts.getD 0 "")
      else true)
  && (if paramTruthy (getParam params "category") then
        r.category == some (jsString ((getParam params "category").getD (.str "")))
      else true)
  && (if paramTruthy (getParam params "status") then
        r.status == some (jsString ((getParam params "status").getD (.str "")))
      else true)
  && (if paramTruthy (getParam params "date") then
        let dateStr := jsString ((getParam params "date").getD (.str ""))
        if strStartsWith dateStr "ge" then
          match r.effective_date with
          | some d => decide (stringDrop dateStr 2 ≤ d)
          | none => false
        else if strStartsWith dateStr "le" then
          match r.effective_date with
          | some d => decide (d ≤ stringDrop dateStr 2)
          | none => false
        else if strStartsWith dateStr "gt" then
          match r.effective_date with
          | some d => decide (stringDrop dateStr 2 < d)
          | none => false
        else if strStartsWith dateStr "lt" then
          match r.effective_date with
          | some d => decide (d < stringDrop dateStr 2)
          | none => false
        else r.effective_date == some dateStr
      else true)
  && (if user.role == .patient && jsTruthy user.patientId then
        r.patient_id == user.patientId.getD ""
      else true)

/-- The ORDER BY of the observation search: `_sort=-date` and `_sort=date`
order by effective date, anything else by `last_updated` descending. -/
def obsSort (params : SearchParams) (rows : List ObservationRow) : List ObservationRow :=
  if getParam params "_sort" == some (.str "-date") then
    sortByBool (fun a b => optDateLe b.effective_date a.effective_date) rows
  else if getParam params "_sort" == some (.str "date") then
    sortByBool (fun a b => optDateLe a.effective_date b.effective_date) rows
  else
    sortByBool (fun a b => decide (b.last_updated ≤ a.last_updated)) rows

/-- The `search` operation of the observation handler. A practitioner with no active care
relationships gets an empty bundle at once; a practitioner with some gets
the query restricted to those patients. -/
def obsSearch (db : Db) (params : SearchParams) (ctx : FhirRequestContext) : HttpResponse :=
  let emptyBundle : HttpResponse :=
    { status := 200, body := .bundle { type := "searchset", total := 0, entry := [] } }
  let run (inFilter : Option (List String)) : HttpResponse :=
    let rows := db.observations.filter fun r =>
      obsSearchFilter db params ctx.user ctx.tenantId r
      && (match inFilter with
          | some ids => ids.contains r.patient_id
          | none => true)
    let page := paginate (obsSort params rows) (extractPagination params)
    { status := 200,
      body := .bundle
        { type := "searchset", total := rows.length,
          entry := page.map fun r => .observation (toFhirObservation r) } }
  if ctx.user.role == .practitioner && jsTruthy ctx.user.practitionerId then
    let carePatients := db.care_relationships.filter fun c =>
      c.tenant_id == ctx.tenantId
        && c.practitioner_id == ctx.user.practitionerId.getD "" && c.active
    if carePatients.isEmpty then emptyBundle
    else run (some (carePatients.map fun c => c.patient_id))
  else run none

/-- The `read` operation of the observation handler: `.single()` lookup, then
`canAccessPatient` on the internal patient id of the row. -/
def obsRead (db : Db) (id : String) (ctx : FhirRequestContext) : HttpResponse :=
  match single? (db.observations.filter fun r =>
      r.tenant_id == ctx.tenantId && r.resource_id == id) with
  | none =>
    fhirError 404 "Observation not found" (some ("No Observation found with id " ++ id))
  | some data =>
    if canAccessPatient db ctx.user data.patient_id then
      { status := 200, body := .resource (.observation (toFhirObservation data)) }
    else
      fhirError 403 "Access denied"
        (some "You do not have permission to access this observation")

/-- The row produced by inserting an `ObservationInsert` (database defaults
as for patients). -/
def obsRowOfInsert (ins : ObservationInsert) (env : Env) : ObservationRow :=
  { id := env.freshRowId, tenant_id := ins.tenant_id, resource_id := ins.resource_id,
    patient_id := ins.patient_id, code_system := ins.code_system,
    code_code := ins.code_code, code_display := ins.code_display,
    category := ins.category, status := ins.status, effective_date := ins.effective_date,
    value_quantity_value := ins.value_quantity_value,
    value_quantity_unit := ins.value_quantity_unit, resource := ins.resource,
    version_id := 1, last_updated := env.now, created_at := env.now }

/-- INSERT INTO observations with the unique-violation check. -/
def insertObservation (db : Db) (env : Env) (ins : ObservationInsert) :
    Option ObservationRow × Db :=
  if db.observations.any fun r =>
      r.tenant_id == ins.tenant_id && r.resource_id == ins.resource_id then
    (none, db)
  else
    let row := obsRowOfInsert ins env
    (some row, { db with observations := db.observations ++ [row] })

/-- The `increment_version_id` trigger on the observations table. -/
def obsIncrementVersion (old tuple : ObservationRow) (dbNow : String) : ObservationRow :=
  { tuple with version_id := old.version_id + 1, last_updated := dbNow }

/-- The tuple proposed by the UPDATE statement of the observation handler. -/
def obsUpdateTuple (old : ObservationRow) (ins : ObservationInsert) (appVersionId : Nat)
    (appNow : String) : ObservationRow :=
  { old with
      tenant_id := ins.tenant_id, resource_id := ins.resource_id,
      patient_id := ins.patient_id, code_system := ins.code_system,
      code_code := ins.code_code, code_display := ins.code_display,
      category := ins.category, status := ins.status,
      effective_date := ins.effective_date,
      value_quantity_value := ins.value_quantity_value,
      value_quantity_unit := ins.value_quantity_unit, resource := ins.resource,
      version_id := appVersionId, last_updated := appNow }

def replaceObservationRow (db : Db) (rowId : String) (stored : ObservationRow) : Db :=
  { db with observations := db.observations.map fun r =>
      if r.id == rowId then stored else r }

/-- The `create` operation of the observation handler: type and required-field validation,
id generation, profile stamping via `getProfile`, row mapping (400 when the
patient reference does not resolve), access check on the referenced patient,
insert. -/
def obsCreate (db : Db) (env : Env) (body : FhirInput) (ctx : FhirRequestContext) :
    HttpResponse × Db :=
  match body with
  | .observation o =>
    if o.resourceType ≠ "Observation" then
      (fhirError 400 "Invalid resource"
        (some "Request body must be an Observation resource"), db)
    else if ¬ jsTruthy o.status then
      (fhirError 400 "Missing required field" (some "Observation.status is required"), db)
    else if o.code.isNone then
      (fhirError 400 "Missing required field" (some "Observation.code is required"), db)
    else if o.subject.isNone then
      (fhirError 400 "Missing required field" (some "Observation.subject is required"), db)
    else
      let observation :=
        if jsTruthy o.id then o else { o with id := some env.freshResourceId }
      let observation :=
        { observation with
            meta := some
              { versionId := observation.meta.bind fun m => m.versionId,
                lastUpdated := observation.meta.bind fun m => m.lastUpdated,
                profile := some [getProfile observation],
                source := observation.meta.bind fun m => m.source } }
      match obsToDbRow db observation ctx.tenantId env.freshResourceId with
      | none =>
        (fhirError 400 "Invalid patient reference" (some "Referenced patient not found"), db)
      | some row =>
        if ¬ canAccessPatient db ctx.user row.patient_id then
          (fhirError 403 "Access denied"
            (some "You do not have permission to create observations for this patient"), db)
        else
          match insertObservation db env row with
          | (none, db2) =>
            (fhirError 409 "Conflict"
              (some ("Observation with id " ++ (observation.id.getD "")
                ++ " already exists")), db2)
          | (some data, db2) =>
            ({ status := 201, body := .resource (.observation (toFhirObservation data)) }, db2)
  | _ =>
    (fhirError 400 "Invalid resource"
      (some "Request body must be an Observation resource"), db)

/-- The `update` operation of the observation handler. -/
def obsUpdate (db : Db) (env : Env) (id : String) (body : FhirInput)
    (ctx : FhirRequestContext) : HttpResponse × Db :=
  match body with
  | .observation o =>
    if o.resourceType ≠ "Observation" then
      (fhirError 400 "Invalid resource"
        (some "Request body must be an Observation resource"), db)
    else if jsTruthy o.id && o.id != some id then
      (fhirError 400 "ID mismatch" (some "Resource ID in body does not match URL"), db)
    else
      let observation := { o with id := some id }
      match single? (db.observations.filter fun r =>
          r.tenant_id == ctx.tenantId && r.resource_id == id) with
      | none =>
        (fhirError 404 "Observation not found"
          (some ("No Observation found with id " ++ id)), db)
      | some existing =>
        if ¬ canAccessPatient db ctx.user existing.patient_id then
          (fhirError 403 "Access denied"
            (some "You do not have permission to update this observation"), db)
        else
          match obsToDbRow db observation ctx.tenantId env.freshResourceId with
          | none =>
            (fhirError 400 "Invalid patient reference"
              (some "Referenced patient not found"), db)
          | some ins =>
            let stored := obsIncrementVersion existing
              (obsUpdateTuple existing ins (existing.version_id + 1) env.now) env.now
            ({ status := 200, body := .resource (.observation (toFhirObservation stored)) },
             replaceObservationRow db existing.id stored)
  | _ =>
    (fhirError 400 "Invalid resource"
      (some "Request body must be an Observation resource"), db)

/-- The `delete` operation of the observation handler: a hard DELETE of the row. -/
def obsDelete (db : Db) (_env : Env) (id : String) (ctx : FhirRequestContext) :
    HttpResponse × Db :=
  match single? (db.observations.filter fun r =>
      r.tenant_id == ctx.tenantId && r.resource_id == id) with
  | none =>
    (fhirError 404 "Observation not found"
      (some ("No Observation found with id " ++ id)), db)
  | some existing =>
    if ¬ canAccessPatient db ctx.user existing.patient_id then
      (fhirError 403 "Access denied"
        (some "You do not have permission to delete this observation"), db)
    else
      (fhirNoContent,
       { db with observations := db.observations.filter fun r => r.id != existing.id })

/-! ## FHIR router (lib/fhir/router.ts) -/

/-- The `ParsedPath` result of `parseFhirPath`. -/
structure ParsedPath where
  version : String
  resourceType : String
  resourceId : Option String
  operation : Option String
deriving DecidableEq, Repr

def SUPPORTED_VERSIONS : List String := ["4_0_1", "R4"]

/-- Function `parseFhirPath`: metadata anywhere in the first two segments wins, else
the first segment must be a supported version and the second the resource
type, with optional id and operation segments. -/
def parseFhirPath (pathSegments : List String) : Option ParsedPath :=
  if pathSegments.length < 1 then none
  else if pathSegments.get? 0 == some "metadata" || pathSegments.get? 1 == some "metadata" then
    some
      { version := if pathSegments.get? 0 == some "metadata" then "4_0_1"
                   else pathSegments.getD 0 "",
        resourceType := "CapabilityStatement", resourceId := none,
        operation := some "metadata" }
  else
    let version := pathSegments.getD 0 ""
    if ¬ SUPPORTED_VERSIONS.contains version then none
    else if pathSegments.length < 2 then none
    else
      some
        { version := version, resourceType := pathSegments.getD 1 "",
          resourceId := pathSegments.get? 2, operation := pathSegments.get? 3 }

/-- A request as the router sees it. `authUser` is the verdict of the
external gateway on the credential headers (`validateGatewayAuth`): `none`
when authentication fails, the mapped user otherwise. -/
structure RouterRequest where
  method : String
  pathSegments : List String
  headerTenantId : Option String
  authUser : Option GatewayUser
  body : FhirInput
  searchParams : SearchParams
  baseUrl : String

/-- Observable steps of one routed request, for ordering properties. -/
inductive RouterEvent
  | capabilityServed
  | gatewayAuthInvoked
  | handlerInvoked (resourceType : String) (method : String)
deriving DecidableEq, Repr

/-- Function `logAuditEvent` (src/lib/supabase/client.ts): append to `audit_logs`. -/
def logAuditEvent (db : Db) (tenantId : String) (userId : Option String) (action : String)
    (resourceType : String) (resourceId : Option String) (responseStatus : Nat) : Db :=
  { db with audit_logs := db.audit_logs ++
      [{ tenant_id := tenantId, user_id := userId, action := action,
         resource_type := resourceType, resource_id := resourceId,
         response_status := responseStatus }] }

/-- The `ResourceHandler` interface of the router. -/
structure ResourceHandler where
  search : Db → SearchParams → FhirRequestContext → HttpResponse
  read : Db → String → FhirRequestContext → HttpResponse
  create : Db → Env → FhirInput → FhirRequestContext → HttpResponse × Db
  update : Db → Env → String → FhirInput → FhirRequestContext → HttpResponse × Db
  delete : Db → Env → String → FhirRequestContext → HttpResponse × Db

/-- Function `handleFhirRequest`, parametric in the handler table: parse, serve
metadata unauthenticated, authenticate, derive the tenant, check the scope
(auditing denials), resolve the handler, dispatch on the HTTP method
(auditing successes with the response status). -/
def handleFhirRequest (table : String → Option ResourceHandler) (req : RouterRequest)
    (db : Db) (env : Env) : HttpResponse × Db × List RouterEvent :=
  match parseFhirPath req.pathSegments with
  | none =>
    (fhirError 400 "Invalid FHIR path"
      (some ("Path: /" ++ String.intercalate "/" req.pathSegments)), db, [])
  | some parsed =>
    if parsed.operation == some "metadata" then
      (getCapabilityStatement req.baseUrl parsed.version env.now, db, [.capabilityServed])
    else
      match req.authUser with
      | none =>
        (fhirError 401 "Unauthorized"
          (some "Authentication required. Provide valid session cookie, API key, or Bearer token."),
         db, [.gatewayAuthInvoked])
      | some user =>
        let tenantId := extractTenantId req.headerTenantId user
        let ctx : FhirRequestContext :=
          { user := user, tenantId := tenantId, version := parsed.version,
            baseUrl := req.baseUrl }
        let action := if req.method == "GET" || req.method == "HEAD" then "read" else "write"
        if ¬ GatewayAuth.hasScope user parsed.resourceType action then
          (fhirError 403 "Forbidden"
            (some ("Insufficient permissions for " ++ action ++ " on " ++ parsed.resourceType)),
           logAuditEvent db tenantId (some user.id) "access_denied" parsed.resourceType
             (orNull parsed.resourceId) 403,
           [.gatewayAuthInvoked])
        else
          match table parsed.resourceType with
          | none =>
            (fhirError 404 "Unknown resource type"
              (some ("Resource type " ++ parsed.resourceType ++ " is not supported")),
             db, [.gatewayAuthInvoked])
          | some handler =>
            let audit (db2 : Db) (status : Nat) : Db :=
              logAuditEvent db2 tenantId (some user.id)
                (strToLower req.method ++ "_" ++ strToLower parsed.resourceType)
                parsed.resourceType (orNull parsed.resourceId) status
            if req.method == "GET" then
              let resp :=
                if jsTruthy parsed.resourceId then
                  handler.read db (parsed.resourceId.getD "") ctx
                else handler.search db req.searchParams ctx
              (resp, audit db resp.status,
               [.gatewayAuthInvoked, .handlerInvoked parsed.resourceType req.method])
            else if req.method == "POST" then
              let result := handler.create db env req.body ctx
              (result.1, audit result.2 result.1.status,
               [.gatewayAuthInvoked, .handlerInvoked parsed.resourceType req.method])
            else if req.method == "PUT" then
              if ¬ jsTruthy parsed.resourceId then
                (fhirError 400 "Resource ID required"
                  (some "PUT requires a resource ID in the URL"), db, [.gatewayAuthInvoked])
              else
                let result := handler.update db env (parsed.resourceId.getD "") req.body ctx
                (result.1, audit result.2 result.1.status,
                 [.gatewayAuthInvoked, .handlerInvoked parsed.resourceType req.method])
            else if req.method == "DELETE" then
              if ¬ jsTruthy parsed.resourceId then
                (fhirError 400 "Resource ID required"
                  (some "DELETE requires a resource ID in the URL"), db, [.gatewayAuthInvoked])
              else
                let result := handler.delete db env (parsed.resourceId.getD "") ctx
                (result.1, audit result.2 result.1.status,
                 [.gatewayAuthInvoked, .handlerInvoked parsed.resourceType req.method])
            else
              (fhirError 405 "Method not allowed"
                (some ("HTTP method " ++ req.method ++ " is not supported")),
               db, [.gatewayAuthInvoked])

/-- The Patient handler record. -/
def patientHandler : ResourceHandler :=
  { search := fun db params ctx => patientSearch db params ctx,
    read := fun db id ctx => patientRead db id ctx,
    create := fun db env body ctx => patientCreate db env body ctx,
    update := fun db env id body ctx => patientUpdate db env id body ctx,
    delete := fun db env id ctx => patientDelete db env id ctx }

/-- The Observation handler record. -/
def observationHandler : ResourceHandler :=
  { search := fun db params ctx => obsSearch db params ctx,
    read := fun db id ctx => obsRead db id ctx,
    create := fun db env body ctx => obsCreate db env body ctx,
    update := fun db env id body ctx => obsUpdate db env id body ctx,
    delete := fun db env id ctx => obsDelete db env id ctx }

/-- The handler table. The live table also lists Condition,
AllergyIntolerance, MedicationRequest, Encounter, Practitioner and
Organization modules, whose implementations are not part of this corpus;
the table here is restricted to the two handlers whose source is given. -/
def resourceHandlersTable (resourceType : String) : Option ResourceHandler :=
  if resourceType == "Patient" then some patientHandler
  else if resourceType == "Observation" then some observationHandler
  else none

/-! ## Claims -/

/-- C2: for every user whose role is not super_admin, the tenant id under
which data access is scoped — the result of `extractTenantId` — equals the
own tenantId of the user regardless of the X-Tenant-ID header, so two requests by
the same non-super-admin user differing only in that header are scoped to
the same tenant. -/
theorem extractTenantId_non_super_admin (user : GatewayUser) (h1 h2 : Option String)
    (h : user.role ≠ UserRole.super_admin) :
    extractTenantId h1 user = user.tenantId ∧
    extractTenantId h1 user = extractTenantId h2 user := by
  unfold extractTenantId
  have hb : (user.role == UserRole.super_admin) = false := by
    simpa using h
  simp [hb]

def exUserC2 : GatewayUser :=
  { id := "u1", email := "u1@example.org", name := none, role := .patient,
    tenantId := "tenant-1", patientId := some "pat-internal-1", practitionerId := none,
    scopes := mapRoleToScopes .patient }

/-- Witness for C2 at a concrete patient-role user and two headers. -/
theorem extractTenantId_non_super_admin_witness :
    extractTenantId (some "tenant-2") exUserC2 = exUserC2.tenantId ∧
    extractTenantId (some "tenant-2") exUserC2 = extractTenantId none exUserC2 :=
  extractTenantId_non_super_admin exUserC2 (some "tenant-2") none (by decide)

/-- C9: for every user whose role is neither super_admin nor tenant_admin,
the role-table `hasScope` denies the delete operation on every resource
type. -/
theorem hasScope_delete_only_admins (user : GatewayUser) (resourceType : String)
    (h1 : user.role ≠ UserRole.super_admin) (h2 : user.role ≠ UserRole.tenant_admin) :
    LibAuth.hasScope user resourceType "delete" = false := by
  unfold LibAuth.hasScope
  cases hr : user.role <;> simp_all

def exUserC9 : GatewayUser :=
  { id := "u2", email := "u2@example.org", name := none, role := .practitioner,
    tenantId := "tenant-1", patientId := none, practitionerId := some "pract-1",
    scopes := mapRoleToScopes .practitioner }

/-- Witness for C9 at a concrete practitioner on Observation. -/
theorem hasScope_delete_only_admins_witness :
    LibAuth.hasScope exUserC9 "Observation" "delete" = false :=
  hasScope_delete_only_admins exUserC9 "Observation" (by decide) (by decide)

/-- C10: `extractPagination` always yields `1 ≤ count ≤ 1000` and
`0 ≤ offset`; concretely, a missing, non-numeric or below-1 `_count` gives
the default 50, a `_count` above 1000 is clamped to 1000, and a missing,
non-numeric or negative `_offset` gives 0. -/
theorem extractPagination_in_range (params : SearchParams) :
    (1 ≤ (extractPagination params).1 ∧ (extractPagination params).1 ≤ 1000 ∧
      0 ≤ (extractPagination params).2) ∧
    extractPagination [] = (50, 0) ∧
    extractPagination
      [("_count", ParamValue.str "abc"), ("_offset", ParamValue.str "-3")] = (50, 0) ∧
    extractPagination
      [("_count", ParamValue.str "0"), ("_offset", ParamValue.str "oops")] = (50, 0) ∧
    extractPagination
      [("_count", ParamValue.str "5000"), ("_offset", ParamValue.str "7")] = (1000, 7) := by
  refine ⟨?_, by decide, by decide, by decide, by decide⟩
  unfold extractPagination
  dsimp only
  refine ⟨?_, ?_, ?_⟩ <;>
  · rcases getParam params "_count" with _ | v <;>
      rcases getParam params "_offset" with _ | w <;>
      (try cases v) <;> (try cases w) <;> simp <;> (try split) <;> omega

/-! Fixtures for witnesses -/

def exEnv : Env :=
  { now := "2025-02-01T00:00:00Z", freshResourceId := "uuid-res-1",
    freshRowId := "uuid-row-1" }

def exAdminUser : GatewayUser :=
  { id := "u-admin", email := "admin@example.org", name := none, role := .tenant_admin,
    tenantId := "tenant-1", patientId := none, practitionerId := none,
    scopes := mapRoleToScopes .tenant_admin }

def exCtxPatient : FhirRequestContext :=
  { user := exUserC2, tenantId := "tenant-1", version := "4_0_1",
    baseUrl := "https://fhir.example.org/api/fhir" }

def exCtxAdmin : FhirRequestContext :=
  { user := exAdminUser, tenantId := "tenant-1", version := "4_0_1",
    baseUrl := "https://fhir.example.org/api/fhir" }

def exObsResource : FhirObservation :=
  { resourceType := "Observation", id := some "obs-1", meta := none,
    status := some "final", code := none, category := none,
    subject := some { reference := some "Patient/pat-2" },
    effectiveDateTime := none, effectivePeriodStart := none, valueQuantity := none }

def exObsRow : ObservationRow :=
  { id := "row-obs-1", tenant_id := "tenant-1", resource_id := "obs-1",
    patient_id := "pat-internal-2", code_system := none, code_code := none,
    code_display := none, category := none, status := some "final",
    effective_date := none, value_quantity_value := none, value_quantity_unit := none,
    resource := exObsResource, version_id := 1,
    last_updated := "2025-01-01T00:00:00Z", created_at := "2025-01-01T00:00:00Z" }

def exDbObs : Db :=
  { patients := [], observations := [exObsRow], care_relationships := [],
    audit_logs := [] }

/-- C1: a patient-role user reading an Observation stored for a different
patient is denied: `canAccessPatient` is false for the pair and the read
returns the 403 OperationOutcome instead of the resource. -/
theorem patient_role_cannot_read_other_observation
    (db : Db) (ctx : FhirRequestContext) (id : String) (row : ObservationRow)
    (hrole : ctx.user.role = UserRole.patient)
    (hfound : single? (db.observations.filter fun r =>
        r.tenant_id == ctx.tenantId && r.resource_id == id) = some row)
    (hdiff : ctx.user.patientId ≠ some row.patient_id) :
    canAccessPatient db ctx.user row.patient_id = false ∧
    obsRead db id ctx = fhirError 403 "Access denied"
      (some "You do not have permission to access this observation") := by
  have hacc : canAccessPatient db ctx.user row.patient_id = false := by
    unfold canAccessPatient
    rw [hrole]
    simp [hdiff]
  refine ⟨hacc, ?_⟩
  unfold obsRead
  rw [hfound]
  simp [hacc]

/-- Witness for C1: the sole stored observation belongs to another patient. -/
theorem patient_role_cannot_read_other_observation_witness :
    canAccessPatient exDbObs exCtxPatient.user exObsRow.patient_id = false ∧
    obsRead exDbObs "obs-1" exCtxPatient = fhirError 403 "Access denied"
      (some "You do not have permission to access this observation") :=
  patient_role_cannot_read_other_observation exDbObs exCtxPatient "obs-1" exObsRow
    rfl (by decide) (by decide)

/-- C8: a request whose path resolves to the metadata operation is answered
with the CapabilityStatement before the authentication step — the gateway is
not consulted, the database is untouched, and two requests with the same
path and base URL produce the same response whatever their credentials,
gateway verdict or tenant header. -/
theorem metadata_needs_no_auth (table : String → Option ResourceHandler)
    (req1 req2 : RouterRequest) (db1 db2 : Db) (env : Env) (parsed : ParsedPath)
    (hparse : parseFhirPath req1.pathSegments = some parsed)
    (hmeta : parsed.operation = some "metadata")
    (hpath : req2.pathSegments = req1.pathSegments)
    (hbase : req2.baseUrl = req1.baseUrl) :
    handleFhirRequest table req1 db1 env =
      (getCapabilityStatement req1.baseUrl parsed.version env.now, db1,
        [RouterEvent.capabilityServed]) ∧
    RouterEvent.gatewayAuthInvoked ∉ (handleFhirRequest table req1 db1 env).2.2 ∧
    (handleFhirRequest table req1 db1 env).1 = (handleFhirRequest table req2 db2 env).1 := by
  have h1 : handleFhirRequest table req1 db1 env =
      (getCapabilityStatement req1.baseUrl parsed.version env.now, db1,
        [RouterEvent.capabilityServed]) := by
    unfold handleFhirRequest
    rw [hparse]
    simp [hmeta]
  have h2 : handleFhirRequest table req2 db2 env =
      (getCapabilityStatement req2.baseUrl parsed.version env.now, db2,
        [RouterEvent.capabilityServed]) := by
    unfold handleFhirRequest
    rw [hpath, hparse]
    simp [hmeta]
  refine ⟨h1, ?_, ?_⟩
  · rw [h1]; simp
  · rw [h1, h2, hbase]

def exReqMetadata1 : RouterRequest :=
  { method := "GET", pathSegments := ["metadata"], headerTenantId := none,
    authUser := none, body := .invalid, searchParams := [],
    baseUrl := "https://fhir.example.org/api/fhir" }

def exReqMetadata2 : RouterRequest :=
  { method := "GET", pathSegments := ["metadata"], headerTenantId := some "tenant-2",
    authUser := some exAdminUser, body := .invalid, searchParams := [],
    baseUrl := "https://fhir.example.org/api/fhir" }

def exDbEmpty : Db :=
  { patients := [], observations := [], care_relationships := [], audit_logs := [] }

/-- Witness for C8: an unauthenticated and an authenticated metadata request
get the same CapabilityStatement, without any gateway call. -/
theorem metadata_needs_no_auth_witness :
    handleFhirRequest resourceHandlersTable exReqMetadata1 exDbEmpty exEnv =
      (getCapabilityStatement exReqMetadata1.baseUrl "4_0_1" exEnv.now, exDbEmpty,
        [RouterEvent.capabilityServed]) ∧
    RouterEvent.gatewayAuthInvoked ∉
      (handleFhirRequest resourceHandlersTable exReqMetadata1 exDbEmpty exEnv).2.2 ∧
    (handleFhirRequest resourceHandlersTable exReqMetadata1 exDbEmpty exEnv).1 =
      (handleFhirRequest resourceHandlersTable exReqMetadata2 exDbObs exEnv).1 :=
  metadata_needs_no_auth resourceHandlersTable exReqMetadata1 exReqMetadata2 exDbEmpty
    exDbObs exEnv
    { version := "4_0_1", resourceType := "CapabilityStatement", resourceId := none,
      operation := some "metadata" }
    (by decide) rfl rfl rfl

/-- C6: when the scope check denies a request, the router returns the 403
OperationOutcome at once: for any handler table, no resource handler runs,
and the resource tables are untouched (only the audit log grows). -/
theorem scope_denied_short_circuits (table : String → Option ResourceHandler)
    (req : RouterRequest) (db : Db) (env : Env) (parsed : ParsedPath) (user : GatewayUser)
    (hparse : parseFhirPath req.pathSegments = some parsed)
    (hnotmeta : parsed.operation ≠ some "metadata")
    (hauth : req.authUser = some user)
    (hscope : GatewayAuth.hasScope user parsed.resourceType
        (if req.method == "GET" || req.method == "HEAD" then "read" else "write") = false) :
    (handleFhirRequest table req db env).1 = fhirError 403 "Forbidden"
      (some ("Insufficient permissions for "
        ++ (if req.method == "GET" || req.method == "HEAD" then "read" else "write")
        ++ " on " ++ parsed.resourceType)) ∧
    (handleFhirRequest table req db env).2.1.patients = db.patients ∧
    (handleFhirRequest table req db env).2.1.observations = db.observations ∧
    ∀ rt m, RouterEvent.handlerInvoked rt m ∉ (handleFhirRequest table req db env).2.2 := by
  have hrun : handleFhirRequest table req db env =
      (fhirError 403 "Forbidden"
        (some ("Insufficient permissions for "
          ++ (if req.method == "GET" || req.method == "HEAD" then "read" else "write")
          ++ " on " ++ parsed.resourceType)),
       logAuditEvent db (extractTenantId req.headerTenantId user) (some user.id)
         "access_denied" parsed.resourceType (orNull parsed.resourceId) 403,
       [RouterEvent.gatewayAuthInvoked]) := by
    unfold handleFhirRequest
    rw [hparse]
    have hm : (parsed.operation == some "metadata") = false := by simpa using hnotmeta
    simp only [hm, Bool.false_eq_true, if_false, hauth, hscope]
    simp
  rw [hrun]
  refine ⟨rfl, rfl, rfl, ?_⟩
  intro rt m
  simp [logAuditEvent]

def exReqDelete : RouterRequest :=
  { method := "DELETE", pathSegments := ["4_0_1", "Patient", "pat-1"],
    headerTenantId := none, authUser := some exUserC2, body := .invalid,
    searchParams := [], baseUrl := "https://fhir.example.org/api/fhir" }

/-- Witness for C6: a patient-role DELETE on Patient is denied with 403 and
no handler runs. -/
theorem scope_denied_short_circuits_witness :
    (handleFhirRequest resourceHandlersTable exReqDelete exDbObs exEnv).1 =
      fhirError 403 "Forbidden"
        (some ("Insufficient permissions for "
          ++ (if exReqDelete.method == "GET" || exReqDelete.method == "HEAD"
              then "read" else "write")
          ++ " on " ++ "Patient")) ∧
    (handleFhirRequest resourceHandlersTable exReqDelete exDbObs exEnv).2.1.patients =
      exDbObs.patients ∧
    (handleFhirRequest resourceHandlersTable exReqDelete exDbObs exEnv).2.1.observations =
      exDbObs.observations ∧
    ∀ rt m, RouterEvent.handlerInvoked rt m ∉
      (handleFhirRequest resourceHandlersTable exReqDelete exDbObs exEnv).2.2 :=
  scope_denied_short_circuits resourceHandlersTable exReqDelete exDbObs exEnv
    { version := "4_0_1", resourceType := "Patient", resourceId := some "pat-1",
      operation := none }
    exUserC2 (by decide) (by decide) rfl (by decide)

/-- C3: a successful PUT of an existing Patient stores a row whose
version_id is exactly the old version_id plus one (the application sends
`existing.version_id + 1` and the BEFORE UPDATE trigger recomputes
`OLD.version_id + 1`, which agree), and the returned resource carries that
value in `meta.versionId`. -/
theorem update_increments_version (db : Db) (env : Env) (id : String) (p : FhirPatient)
    (ctx : FhirRequestContext) (existing : PatientRow)
    (htype : p.resourceType = "Patient")
    (hid : (jsTruthy p.id && p.id != some id) = false)
    (hfound : single? (db.patients.filter fun r =>
        r.tenant_id == ctx.tenantId && r.resource_id == id) = some existing)
    (hacc : canAccessPatient db ctx.user existing.id = true) :
    ∃ stored : PatientRow,
      patientUpdate db env id (.patient p) ctx =
        ({ status := 200, body := .resource (.patient (toFhirPatient stored)) },
         replacePatientRow db existing.id stored) ∧
      stored.version_id = existing.version_id + 1 ∧
      ((toFhirPatient stored).meta.bind fun m => m.versionId) =
        some (toString (existing.version_id + 1)) := by
  refine ⟨increment_version_id existing
    (patientUpdateTuple existing
      (toDbRow { p with id := some id } ctx.tenantId env.freshResourceId)
      (existing.version_id + 1) env.now) env.now, ?_, ?_, ?_⟩
  · unfold patientUpdate
    rw [hfound]
    simp [htype, hid, hfound, hacc]
  · simp [increment_version_id]
  · simp [toFhirPatient, increment_version_id]

def exPatientResource : FhirPatient :=
  { resourceType := "Patient", id := some "pat-1",
    meta := some { versionId := none, lastUpdated := none, profile := none,
                   source := some "ehr-system" },
    identifier := some [{ system := some "urn:oid:2.16.840.1.113883.2.4.6.3",
                          value := some "999" }],
    name := some [{ family := some "Jansen", given := some ["Jan"] }],
    birthDate := some "1980-01-01", gender := some "male",
    deceasedBoolean := none, deceasedDateTime := none, active := some true }

def exPatientRow : PatientRow :=
  { id := "row-pat-1", tenant_id := "tenant-1", resource_id := "pat-1",
    bsn_hash := none, family_name := some "Jansen", given_name := some "Jan",
    birth_date := some "1980-01-01", gender := some "male", deceased := false,
    active := true, resource := exPatientResource, version_id := 3,
    last_updated := "2025-01-01T00:00:00Z", created_at := "2025-01-01T00:00:00Z" }

def exDbPat : Db :=
  { patients := [exPatientRow], observations := [], care_relationships := [],
    audit_logs := [] }

/-- Witness for C3: updating the stored patient (version 3) yields version 4
in the row and in the returned meta.versionId. -/
theorem update_increments_version_witness :
    ∃ stored : PatientRow,
      patientUpdate exDbPat exEnv "pat-1" (.patient exPatientResource) exCtxAdmin =
        ({ status := 200, body := .resource (.patient (toFhirPatient stored)) },
         replacePatientRow exDbPat exPatientRow.id stored) ∧
      stored.version_id = exPatientRow.version_id + 1 ∧
      ((toFhirPatient stored).meta.bind fun m => m.versionId) =
        some (toString (exPatientRow.version_id + 1)) :=
  update_increments_version exDbPat exEnv "pat-1" exPatientResource exCtxAdmin
    exPatientRow rfl (by decide) (by decide) (by decide)

/-- C5 counterexample: soft-deleting the stored patient (version 3) keeps
the row but its version_id becomes 4 — the `patients_version` BEFORE UPDATE
trigger fires on the `active = false` UPDATE — so the delete does not leave
version_id unchanged as claimed. -/
theorem patient_delete_changes_version_id :
    (patientDelete exDbPat exEnv "pat-1" exCtxAdmin).1 = fhirNoContent ∧
    ((patientDelete exDbPat exEnv "pat-1" exCtxAdmin).2.patients.map
      fun r => r.version_id) = [4] ∧
    (exDbPat.patients.map fun r => r.version_id) = [3] := by decide

/-- C5 (amended): a successful DELETE of a Patient soft-deactivates: the row
is retained with `active = false`; the resource blob, family_name,
given_name, resource_id, tenant_id (and all other application columns) are
unchanged, while the version trigger increments version_id by one and
refreshes last_updated. -/
theorem patient_delete_soft_deactivates (db : Db) (env : Env) (id : String)
    (ctx : FhirRequestContext) (existing : PatientRow)
    (hfound : single? (db.patients.filter fun r =>
        r.tenant_id == ctx.tenantId && r.resource_id == id) = some existing)
    (hacc : canAccessPatient db ctx.user existing.id = true) :
    ∃ stored : PatientRow,
      patientDelete db env id ctx = (fhirNoContent, replacePatientRow db existing.id stored) ∧
      stored.active = false ∧
      stored.resource = existing.resource ∧
      stored.family_name = existing.family_name ∧
      stored.given_name = existing.given_name ∧
      stored.resource_id = existing.resource_id ∧
      stored.tenant_id = existing.tenant_id ∧
      stored.bsn_hash = existing.bsn_hash ∧
      stored.birth_date = existing.birth_date ∧
      stored.gender = existing.gender ∧
      stored.deceased = existing.deceased ∧
      stored.id = existing.id ∧
      stored.created_at = existing.created_at ∧
      stored.version_id = existing.version_id + 1 ∧
      stored.last_updated = env.now := by
  refine ⟨increment_version_id existing { existing with active := false } env.now, ?_, ?_⟩
  · unfold patientDelete
    rw [hfound]
    simp [hacc]
  · simp [increment_version_id]

/-- Witness for the amended C5 on the concrete store. -/
theorem patient_delete_soft_deactivates_witness :
    ∃ stored : PatientRow,
      patientDelete exDbPat exEnv "pat-1" exCtxAdmin =
        (fhirNoContent, replacePatientRow exDbPat exPatientRow.id stored) ∧
      stored.active = false ∧
      stored.resource = exPatientRow.resource ∧
      stored.family_name = exPatientRow.family_name ∧
      stored.given_name = exPatientRow.given_name ∧
      stored.resource_id = exPatientRow.resource_id ∧
      stored.tenant_id = exPatientRow.tenant_id ∧
      stored.bsn_hash = exPatientRow.bsn_hash ∧
      stored.birth_date = exPatientRow.birth_date ∧
      stored.gender = exPatientRow.gender ∧
      stored.deceased = exPatientRow.deceased ∧
      stored.id = exPatientRow.id ∧
      stored.created_at = exPatientRow.created_at ∧
      stored.version_id = exPatientRow.version_id + 1 ∧
      stored.last_updated = exEnv.now :=
  patient_delete_soft_deactivates exDbPat exEnv "pat-1" exCtxAdmin exPatientRow
    (by decide) (by decide)

/-! Projection lemmas used by the round-trip proof. -/

theorem toDbRow_tenant_id (p : FhirPatient) (t f : String) :
    (toDbRow p t f).tenant_id = t := rfl

theorem toDbRow_resource (p : FhirPatient) (t f : String) :
    (toDbRow p t f).resource = p := rfl

theorem rowOfInsert_tenant_id (ins : PatientInsert) (env : Env) :
    (patientRowOfInsert ins env).tenant_id = ins.tenant_id := rfl

theorem rowOfInsert_resource_id (ins : PatientInsert) (env : Env) :
    (patientRowOfInsert ins env).resource_id = ins.resource_id := rfl

theorem rowOfInsert_resource (ins : PatientInsert) (env : Env) :
    (patientRowOfInsert ins env).resource = ins.resource := rfl

theorem rowOfInsert_id (ins : PatientInsert) (env : Env) :
    (patientRowOfInsert ins env).id = env.freshRowId := rfl

theorem rowOfInsert_version_id (ins : PatientInsert) (env : Env) :
    (patientRowOfInsert ins env).version_id = 1 := rfl

theorem rowOfInsert_last_updated (ins : PatientInsert) (env : Env) :
    (patientRowOfInsert ins env).last_updated = env.now := rfl

theorem toFhirPatient_id (r : PatientRow) : (toFhirPatient r).id = some r.resource_id := rfl

theorem toFhirPatient_resourceType (r : PatientRow) :
    (toFhirPatient r).resourceType = "Patient" := rfl

theorem toFhirPatient_name (r : PatientRow) : (toFhirPatient r).name = r.resource.name := rfl

theorem toFhirPatient_identifier (r : PatientRow) :
    (toFhirPatient r).identifier = r.resource.identifier := rfl

theorem toFhirPatient_birthDate (r : PatientRow) :
    (toFhirPatient r).birthDate = r.resource.birthDate := rfl

theorem toFhirPatient_gender (r : PatientRow) :
    (toFhirPatient r).gender = r.resource.gender := rfl

theorem toFhirPatient_deceasedBoolean (r : PatientRow) :
    (toFhirPatient r).deceasedBoolean = r.resource.deceasedBoolean := rfl

theorem toFhirPatient_deceasedDateTime (r : PatientRow) :
    (toFhirPatient r).deceasedDateTime = r.resource.deceasedDateTime := rfl

theorem toFhirPatient_active (r : PatientRow) :
    (toFhirPatient r).active = r.resource.active := rfl

theorem toFhirPatient_meta_versionId (r : PatientRow) :
    ((toFhirPatient r).meta.bind fun m => m.versionId) = some (toString r.version_id) := rfl

theorem toFhirPatient_meta_lastUpdated (r : PatientRow) :
    ((toFhirPatient r).meta.bind fun m => m.lastUpdated) = some r.last_updated := rfl

theorem toFhirPatient_meta_profile (r : PatientRow) :
    ((toFhirPatient r).meta.bind fun m => m.profile) = some [NL_CORE_PATIENT_PROFILE] := rfl

theorem toFhirPatient_meta_source (r : PatientRow) :
    ((toFhirPatient r).meta.bind fun m => m.source) =
      (r.resource.meta.bind fun m => m.source) := rfl

/-- Lemma: `canAccessPatient` reads only the care_relationships table, so changing
the resource tables cannot change its verdict. -/
theorem canAccessPatient_ignores_resource_tables (db db2 : Db) (user : GatewayUser)
    (patientId : String) (h : db.care_relationships = db2.care_relationships) :
    canAccessPatient db user patientId = canAccessPatient db2 user patientId := by
  simp [canAccessPatient, hasCareRelationship, h]

/-- A successful `.single()` read returns the stored row mapped by
`toFhirPatient`. -/
theorem patientRead_of_single (db : Db) (ctx : FhirRequestContext) (id : String)
    (row : PatientRow)
    (hfound : single? (db.patients.filter fun r =>
        r.tenant_id == ctx.tenantId && r.resource_id == id) = some row)
    (hacc : canAccessPatient db ctx.user row.id = true) :
    patientRead db id ctx = { status := 200, body := .resource (.patient (toFhirPatient row)) } := by
  unfold patientRead
  rw [hfound]
  simp [hacc]

/-- C4: a Patient accepted by create and then read back by the returned id
round-trips: the stored blob passes through `toDbRow` and `toFhirPatient`
unchanged except for `resourceType`, `id` and the server-set meta
(versionId, lastUpdated, profile); other meta content survives. -/
theorem create_then_read_roundtrip (db : Db) (env : Env) (p : FhirPatient)
    (ctx : FhirRequestContext)
    (htype : p.resourceType = "Patient")
    (hfresh : (db.patients.any fun r => r.tenant_id == ctx.tenantId &&
        r.resource_id == (toDbRow (if jsTruthy p.id then p else
          { p with id := some env.freshResourceId }) ctx.tenantId
            env.freshResourceId).resource_id) = false)
    (hacc : canAccessPatient db ctx.user env.freshRowId = true) :
    ∃ q : FhirPatient,
      (patientCreate db env (.patient p) ctx).1 =
        { status := 201, body := .resource (.patient q) } ∧
      patientRead (patientCreate db env (.patient p) ctx).2 (q.id.getD "") ctx =
        { status := 200, body := .resource (.patient q) } ∧
      q.resourceType = "Patient" ∧ q.id.isSome = true ∧
      q.name = p.name ∧ q.identifier = p.identifier ∧ q.birthDate = p.birthDate ∧
      q.gender = p.gender ∧ q.deceasedBoolean = p.deceasedBoolean ∧
      q.deceasedDateTime = p.deceasedDateTime ∧ q.active = p.active ∧
      (q.meta.bind fun m => m.versionId) = some "1" ∧
      (q.meta.bind fun m => m.lastUpdated) = some env.now ∧
      (q.meta.bind fun m => m.profile) = some [NL_CORE_PATIENT_PROFILE] ∧
      (q.meta.bind fun m => m.source) = (p.meta.bind fun m => m.source) := by
  set pOne := if jsTruthy p.id then p else { p with id := some env.freshResourceId } with hpOne
  set ins := toDbRow pOne ctx.tenantId env.freshResourceId with hins
  set row := patientRowOfInsert ins env with hrow
  have hcreate : patientCreate db env (.patient p) ctx =
      ({ status := 201, body := .resource (.patient (toFhirPatient row)) },
       { db with patients := db.patients ++ [row] }) := by
    have hfreshRaw := hfresh
    rw [hins, hpOne] at hfreshRaw
    unfold patientCreate insertPatient
    rw [hrow, hins, hpOne]
    dsimp only
    rw [if_neg (fun hcon => hcon htype)]
    simp only [toDbRow_tenant_id]
    simp only [hfreshRaw]
    simp
  refine ⟨toFhirPatient row, ?_, ?_, ?_⟩
  · rw [hcreate]
  · rw [hcreate]
    have hid : (toFhirPatient row).id.getD "" = ins.resource_id := by
      rw [toFhirPatient_id, rowOfInsert_resource_id]
      rfl
    rw [hid]
    apply patientRead_of_single
    · rw [List.filter_append]
      have h1 : db.patients.filter (fun r =>
          r.tenant_id == ctx.tenantId && r.resource_id == ins.resource_id) = [] := by
        rw [List.filter_eq_nil_iff]
        intro a ha hcontra
        have : db.patients.any (fun r => r.tenant_id == ctx.tenantId &&
            r.resource_id == ins.resource_id) = true :=
          List.any_eq_true.mpr ⟨a, ha, hcontra⟩
        rw [hfresh] at this
        exact Bool.false_ne_true this
      rw [h1]
      have h2 : ([row].filter (fun r =>
          r.tenant_id == ctx.tenantId && r.resource_id == ins.resource_id)) = [row] := by
        rw [hrow, hins]
        simp [List.filter, rowOfInsert_tenant_id, rowOfInsert_resource_id,
          toDbRow_tenant_id]
      rw [h2]
      rfl
    · rw [rowOfInsert_id]
      dsimp only
      rw [← canAccessPatient_ignores_resource_tables db
        { db with patients := db.patients ++ [row] } ctx.user env.freshRowId rfl]
      exact hacc
  · have hres : row.resource = pOne := by
      rw [rowOfInsert_resource, hins, toDbRow_resource]
    constructor
    · exact toFhirPatient_resourceType row
    constructor
    · rw [toFhirPatient_id]; rfl
    refine ⟨?_, ?_, ?_, ?_, ?_, ?_, ?_, ?_, ?_, ?_, ?_⟩
    · rw [toFhirPatient_name, hres, hpOne]; cases jsTruthy p.id <;> simp
    · rw [toFhirPatient_identifier, hres, hpOne]; cases jsTruthy p.id <;> simp
    · rw [toFhirPatient_birthDate, hres, hpOne]; cases jsTruthy p.id <;> simp
    · rw [toFhirPatient_gender, hres, hpOne]; cases jsTruthy p.id <;> simp
    · rw [toFhirPatient_deceasedBoolean, hres, hpOne]; cases jsTruthy p.id <;> simp
    · rw [toFhirPatient_deceasedDateTime, hres, hpOne]; cases jsTruthy p.id <;> simp
    · rw [toFhirPatient_active, hres, hpOne]; cases jsTruthy p.id <;> simp
    · rw [toFhirPatient_meta_versionId, rowOfInsert_version_id]; rfl
    · rw [toFhirPatient_meta_lastUpdated, rowOfInsert_last_updated]
    · rw [toFhirPatient_meta_profile]
    · rw [toFhirPatient_meta_source, hres, hpOne]; cases jsTruthy p.id <;> simp

/-- Witness for C4: create then read of a concrete Patient in an empty
store round-trips all modelled fields. -/
theorem create_then_read_roundtrip_witness :
    ∃ q : FhirPatient,
      (patientCreate exDbEmpty exEnv (.patient exPatientResource) exCtxAdmin).1 =
        { status := 201, body := .resource (.patient q) } ∧
      patientRead (patientCreate exDbEmpty exEnv (.patient exPatientResource) exCtxAdmin).2
          (q.id.getD "") exCtxAdmin =
        { status := 200, body := .resource (.patient q) } ∧
      q.resourceType = "Patient" ∧ q.id.isSome = true ∧
      q.name = exPatientResource.name ∧ q.identifier = exPatientResource.identifier ∧
      q.birthDate = exPatientResource.birthDate ∧ q.gender = exPatientResource.gender ∧
      q.deceasedBoolean = exPatientResource.deceasedBoolean ∧
      q.deceasedDateTime = exPatientResource.deceasedDateTime ∧
      q.active = exPatientResource.active ∧
      (q.meta.bind fun m => m.versionId) = some "1" ∧
      (q.meta.bind fun m => m.lastUpdated) = some exEnv.now ∧
      (q.meta.bind fun m => m.profile) = some [NL_CORE_PATIENT_PROFILE] ∧
      (q.meta.bind fun m => m.source) = (exPatientResource.meta.bind fun m => m.source) :=
  create_then_read_roundtrip exDbEmpty exEnv exPatientResource exCtxAdmin rfl
    (by decide) (by decide)

def exReqPatch : RouterRequest :=
  { method := "PATCH", pathSegments := ["4_0_1", "Patient", "pat-1"],
    headerTenantId := none, authUser := some exAdminUser, body := .invalid,
    searchParams := [], baseUrl := "https://fhir.example.org/api/fhir" }

def isOutcomeBody : ResponseBody → Bool
  | .outcome _ => true
  | _ => false

/-- C7 counterexample: an authenticated PATCH on a valid Patient path makes
the router answer with a 405 OperationOutcome — an error response whose
status lies outside the claimed set {400, 401, 403, 404, 409, 500}. -/
theorem router_returns_405 :
    (handleFhirRequest resourceHandlersTable exReqPatch exDbPat exEnv).1.status = 405 ∧
    isOutcomeBody
      (handleFhirRequest resourceHandlersTable exReqPatch exDbPat exEnv).1.body = true ∧
    ¬ ((405 : Nat) ∈ ([400, 401, 403, 404, 409, 500] : List Nat)) := by decide

def conventionalStatuses : List Nat := [400, 401, 403, 404, 405, 409, 500]

def conventionalError (resp : HttpResponse) : Prop :=
  400 ≤ resp.status →
    (∃ oo, resp.body = ResponseBody.outcome oo) ∧ resp.status ∈ conventionalStatuses

theorem fhirError_conventional (s : Nat) (m : String) (d : Option String)
    (hs : s ∈ conventionalStatuses) : conventionalError (fhirError s m d) :=
  fun _ => ⟨⟨_, rfl⟩, hs⟩

theorem success_conventional (resp : HttpResponse) (h : resp.status < 400) :
    conventionalError resp :=
  fun hge => absurd hge (by omega)

theorem patientCreate_conventional (db : Db) (env : Env) (body : FhirInput)
    (ctx : FhirRequestContext) : conventionalError (patientCreate db env body ctx).1 := by
  unfold patientCreate
  repeat' (first | split | dsimp only)
  all_goals first
    | (apply fhirError_conventional; simp [conventionalStatuses])
    | (apply success_conventional; simp)

theorem patientRead_conventional (db : Db) (id : String) (ctx : FhirRequestContext) :
    conventionalError (patientRead db id ctx) := by
  unfold patientRead
  repeat' (first | split | dsimp only)
  all_goals first
    | (apply fhirError_conventional; simp [conventionalStatuses])
    | (apply success_conventional; simp)


theorem patientSearch_conventional (db : Db) (params : SearchParams)
    (ctx : FhirRequestContext) : conventionalError (patientSearch db params ctx) := by
  unfold patientSearch
  (apply success_conventional; simp)

theorem patientUpdate_conventional (db : Db) (env : Env) (id : String) (body : FhirInput)
    (ctx : FhirRequestContext) : conventionalError (patientUpdate db env id body ctx).1 := by
  unfold patientUpdate
  repeat' (first | split | dsimp only)
  all_goals first
    | (apply fhirError_conventional; simp [conventionalStatuses])
    | (apply success_conventional; simp)

theorem patientDelete_conventional (db : Db) (env : Env) (id : String)
    (ctx : FhirRequestContext) : conventionalError (patientDelete db env id ctx).1 := by
  unfold patientDelete
  repeat' (first | split | dsimp only)
  all_goals first
    | (apply fhirError_conventional; simp [conventionalStatuses])
    | (apply success_conventional; simp [fhirNoContent])

theorem obsSearch_conventional (db : Db) (params : SearchParams)
    (ctx : FhirRequestContext) : conventionalError (obsSearch db params ctx) := by
  unfold obsSearch
  repeat' (first | split | dsimp only)
  all_goals (apply success_conventional; simp)

theorem obsRead_conventional (db : Db) (id : String) (ctx : FhirRequestContext) :
    conventionalError (obsRead db id ctx) := by
  unfold obsRead
  repeat' (first | split | dsimp only)
  all_goals first
    | (apply fhirError_conventional; simp [conventionalStatuses])
    | (apply success_conventional; simp)

theorem obsCreate_conventional (db : Db) (env : Env) (body : FhirInput)
    (ctx : FhirRequestContext) : conventionalError (obsCreate db env body ctx).1 := by
  unfold obsCreate
  repeat' (first | split | dsimp only)
  all_goals first
    | (apply fhirError_conventional; simp [conventionalStatuses])
    | (apply success_conventional; simp)

theorem obsUpdate_conventional (db : Db) (env : Env) (id : String) (body : FhirInput)
    (ctx : FhirRequestContext) : conventionalError (obsUpdate db env id body ctx).1 := by
  unfold obsUpdate
  repeat' (first | split | dsimp only)
  all_goals first
    | (apply fhirError_conventional; simp [conventionalStatuses])
    | (apply success_conventional; simp)

theorem obsDelete_conventional (db : Db) (env : Env) (id : String)
    (ctx : FhirRequestContext) : conventionalError (obsDelete db env id ctx).1 := by
  unfold obsDelete
  repeat' (first | split | dsimp only)
  all_goals first
    | (apply fhirError_conventional; simp [conventionalStatuses])
    | (apply success_conventional; simp [fhirNoContent])


set_option maxHeartbeats 1000000 in
/-- C7 (amended): every error response (status at least 400) produced by
the FHIR request handler — over the Patient and Observation handlers given
in the source — is an OperationOutcome, and its status lies in the
conventional set extended with 405 for unsupported methods:
{400, 401, 403, 404, 405, 409, 500}. -/
theorem router_error_responses (req : RouterRequest) (db : Db) (env : Env) :
    400 ≤ (handleFhirRequest resourceHandlersTable req db env).1.status →
      (∃ oo, (handleFhirRequest resourceHandlersTable req db env).1.body =
        ResponseBody.outcome oo) ∧
      (handleFhirRequest resourceHandlersTable req db env).1.status ∈
        conventionalStatuses := by
  show conventionalError (handleFhirRequest resourceHandlersTable req db env).1
  unfold handleFhirRequest
  rcases hP : parseFhirPath req.pathSegments with _ | parsed
  · (apply fhirError_conventional; simp [conventionalStatuses])
  dsimp only
  split
  · (apply success_conventional; simp [getCapabilityStatement])
  rcases hU : req.authUser with _ | user
  · (apply fhirError_conventional; simp [conventionalStatuses])
  dsimp only
  rcases htab : resourceHandlersTable parsed.resourceType with _ | handler
  · repeat' (first | dsimp only | split)
    all_goals (apply fhirError_conventional; simp [conventionalStatuses])
  · have hh : handler = patientHandler ∨ handler = observationHandler := by
      have h2 := htab
      unfold resourceHandlersTable at h2
      split at h2
      · exact Or.inl (Option.some.inj h2).symm
      · split at h2
        · exact Or.inr (Option.some.inj h2).symm
        · cases h2
    rcases hh with h | h <;> subst h <;>
      (repeat' (first | dsimp only | split)) <;>
      first
        | (apply fhirError_conventional; simp [conventionalStatuses])
        | exact patientRead_conventional db _ _
        | exact patientSearch_conventional db _ _
        | exact patientCreate_conventional db env _ _
        | exact patientUpdate_conventional db env _ _ _
        | exact patientDelete_conventional db env _ _
        | exact obsRead_conventional db _ _
        | exact obsSearch_conventional db _ _
        | exact obsCreate_conventional db env _ _
        | exact obsUpdate_conventional db env _ _ _
        | exact obsDelete_conventional db env _ _

def exReqBadPath : RouterRequest :=
  { method := "GET", pathSegments := [], headerTenantId := none, authUser := none,
    body := .invalid, searchParams := [], baseUrl := "https://fhir.example.org/api/fhir" }

/-- Witness for the amended C7: the invalid-path request errors with an
OperationOutcome whose status is in the conventional set. -/
theorem router_error_responses_witness :
    (∃ oo, (handleFhirRequest resourceHandlersTable exReqBadPath exDbEmpty exEnv).1.body =
      ResponseBody.outcome oo) ∧
    (handleFhirRequest resourceHandlersTable exReqBadPath exDbEmpty exEnv).1.status ∈
      conventionalStatuses :=
  router_error_responses exReqBadPath exDbEmpty exEnv (by decide)
